import Mathlib

/-!
Shallow embedding of the RTRWH assessment computation pipeline
(backend/app/services/calculators.py and backend/app/routers/assessments.py).
Real-valued quantities are modelled as rationals; the banker-style rounding
used by the host language round builtin is modelled exactly on rationals.
-/

namespace RTRWH

/-- Round a rational to the nearest integer, ties to even (the rounding rule
of the host language round builtin for exactly representable values). -/
def roundHalfEven (x : ℚ) : ℤ :=
  if Int.fract x < 1/2 then ⌊x⌋
  else if 1/2 < Int.fract x then ⌊x⌋ + 1
  else if ⌊x⌋ % 2 = 0 then ⌊x⌋ else ⌊x⌋ + 1

/-- Round to 2 decimal places, ties to even: models round(x, 2). -/
def pyRound2 (x : ℚ) : ℚ := (roundHalfEven (x * 100) : ℚ) / 100

/-- Round to 1 decimal place, ties to even: models round(x, 1). -/
def pyRound1 (x : ℚ) : ℚ := (roundHalfEven (x * 10) : ℚ) / 10

/-- Embedding of estimate_runoff_liters (calculators.py lines 4-11). -/
def estimate_runoff_liters (annual_rainfall_mm roof_area_m2 runoff_coefficient : ℚ) : ℚ :=
  annual_rainfall_mm * roof_area_m2 * runoff_coefficient

/-- Embedding of recommend_structure_type (calculators.py lines 14-27):
an ordered chain of guards, first match wins. -/
def recommend_structure_type (roof_area_m2 open_space_area_m2 gw_depth_m : ℚ) : String :=
  if gw_depth_m < 5 ∧ open_space_area_m2 ≥ 20 then "trench"
  else if roof_area_m2 < 120 then "pit"
  else if roof_area_m2 ≥ 300 ∧ gw_depth_m ≥ 10 then "recharge_well"
  else "shaft"

/-- Result record of suggest_dimensions: the dimensions mapping (a string-keyed
association list, mirroring the returned dict), the effective storage in
liters and the notes string. -/
structure DimResult where
  dims : List (String × ℚ)
  effective_storage_liters : ℚ
  notes : String
  deriving Repr, DecidableEq

/-- Local depth_m of the pit branch of suggest_dimensions (line 44). -/
def pit_depth_m (target_storage_liters : ℚ) : ℚ :=
  max 1.2 (target_storage_liters / (0.4 * 1.5 * 1.5 * 1000))

/-- Local depth_m of the trench branch of suggest_dimensions (line 51). -/
def trench_depth_m (target_storage_liters : ℚ) : ℚ :=
  max 1.2 (target_storage_liters / (0.35 * 6.0 * 0.6 * 1000))

/-- Local depth_m of the shaft branch of suggest_dimensions (line 57). -/
def shaft_depth_m (target_storage_liters : ℚ) : ℚ :=
  max 6.0 (target_storage_liters / (0.3 * 3.1416 * (0.9/2)^2 * 1000))

/-- Local depth_m of the recharge-well fallback branch of suggest_dimensions
(line 63). -/
def well_depth_m (target_storage_liters : ℚ) : ℚ :=
  max 8.0 (target_storage_liters / (3.1416 * (1.0/2)^2 * 1000))

/-- Embedding of suggest_dimensions (calculators.py lines 30-65).
Each branch solves the free depth against the target, reports the depth
rounded (2 decimals for pit and trench, 1 for shaft and the well fallback),
and computes the effective storage from the unrounded local depth_m,
exactly as the source does. Every structure_type other than pit, trench
and shaft falls through to the recharge-well branch. -/
def suggest_dimensions (structure_type : String) (target_storage_liters : ℚ) : DimResult :=
  if structure_type = "pit" then
    { dims := [("length_m", 1.5), ("breadth_m", 1.5),
               ("depth_m", pyRound2 (pit_depth_m target_storage_liters))],
      effective_storage_liters := 0.4 * 1.5 * 1.5 * pit_depth_m target_storage_liters * 1000,
      notes := "40% void ratio assumed for pebble media" }
  else if structure_type = "trench" then
    { dims := [("length_m", 6.0), ("breadth_m", 0.6),
               ("depth_m", pyRound2 (trench_depth_m target_storage_liters))],
      effective_storage_liters := 0.35 * 6.0 * 0.6 * trench_depth_m target_storage_liters * 1000,
      notes := "35% void ratio assumed for brickbats" }
  else if structure_type = "shaft" then
    { dims := [("diameter_m", 0.9),
               ("depth_m", pyRound1 (shaft_depth_m target_storage_liters))],
      effective_storage_liters := 0.3 * 3.1416 * (0.9/2)^2 * shaft_depth_m target_storage_liters * 1000,
      notes := "30% effective storage with gravel pack" }
  else
    { dims := [("diameter_m", 1.0),
               ("depth_m", pyRound1 (well_depth_m target_storage_liters))],
      effective_storage_liters := 3.1416 * (1.0/2)^2 * well_depth_m target_storage_liters * 1000,
      notes := "Assuming full well volume as storage" }

/-- Depth reported in the dimensions mapping of a DimResult (the value the
route serialises under the depth_m key). -/
def depthOf (r : DimResult) : ℚ := (r.dims.lookup "depth_m").getD 0

/-- Embedding of estimate_costs (calculators.py lines 68-78): string-keyed
base-cost and per-kiloliter tables with a 30000 / 3.0 fallback. -/
def estimate_costs (structure_type : String) (effective_storage_liters : ℚ) : ℚ × ℚ :=
  let base_cost : ℚ :=
    if structure_type = "pit" then 20000
    else if structure_type = "trench" then 35000
    else if structure_type = "shaft" then 60000
    else if structure_type = "recharge_well" then 120000
    else 30000
  let per_liter_cost : ℚ :=
    if structure_type = "pit" then 3.0
    else if structure_type = "trench" then 2.5
    else if structure_type = "shaft" then 4.0
    else if structure_type = "recharge_well" then 4.5
    else 3.0
  let capex := base_cost + per_liter_cost * (effective_storage_liters / 1000)
  let opex := 0.02 * capex
  (capex, opex)

/-- Embedding of estimate_benefit (calculators.py lines 81-86). -/
def estimate_benefit (runoff_liters : ℚ) : ℚ := runoff_liters

/-- Embedding of the RunoffResult schema (schemas.py). -/
structure RunoffResult where
  annual_rainfall_mm : ℚ
  runoff_coefficient : ℚ
  annual_runoff_volume_liters : ℚ
  deriving Repr, DecidableEq

/-- Embedding of the StructureDesign schema (schemas.py). -/
structure StructureDesign where
  structure_type : String
  dimensions : List (String × ℚ)
  storage_volume_liters : ℚ
  notes : String
  deriving Repr, DecidableEq

/-- Embedding of the CostBenefit schema (schemas.py). -/
structure CostBenefit where
  capex_currency : ℚ
  opex_currency_per_year : ℚ
  water_savings_liters_per_year : ℚ
  payback_years : ℚ
  deriving Repr, DecidableEq

/-- Embedding of the AssessmentResult schema (schemas.py); the aquifer
snapshot dict is opaque to every claim and is omitted. -/
structure AssessmentResult where
  runoff : RunoffResult
  structure_design : StructureDesign
  cost : CostBenefit
  recharge_potential_liters : ℚ
  deriving Repr, DecidableEq

/-- Embedding of the computation of create_assessment (assessments.py lines
42-60): the five calculator stages applied to the already-resolved rainfall
and groundwater-depth context, with the fixed 0.85 runoff coefficient,
0.25 design-storm target fraction, the payback formula of line 52 and the
recharge-potential cap of line 59. -/
def create_assessment_result (annual_mm rooftop_area_m2 open_space_area_m2 gw_depth_m : ℚ)
    (preferred_structure : Option String) : AssessmentResult :=
  let runoff_coeff : ℚ := 0.85
  let runoff_liters := estimate_runoff_liters annual_mm rooftop_area_m2 runoff_coeff
  let struct_type := preferred_structure.getD
    (recommend_structure_type rooftop_area_m2 open_space_area_m2 gw_depth_m)
  let sd := suggest_dimensions struct_type (runoff_liters * 0.25)
  let costs := estimate_costs struct_type sd.effective_storage_liters
  let benefit_lpy := estimate_benefit runoff_liters
  let payback_years := costs.1 / max 1.0 (benefit_lpy / 1000)
  { runoff := { annual_rainfall_mm := annual_mm, runoff_coefficient := runoff_coeff,
                annual_runoff_volume_liters := runoff_liters },
    structure_design := { structure_type := struct_type, dimensions := sd.dims,
                          storage_volume_liters := sd.effective_storage_liters,
                          notes := sd.notes },
    cost := { capex_currency := costs.1, opex_currency_per_year := costs.2,
              water_savings_liters_per_year := benefit_lpy, payback_years := payback_years },
    recharge_potential_liters := min runoff_liters (sd.effective_storage_liters * 12) }

/-- Stages of the assessment pipeline, in the order the route runs them. -/
inductive PipelineStage where
  | runoffStage | selectionStage | dimensioningStage | costingStage | benefitStage
  deriving Repr, DecidableEq

/-- Embedding of the create_assessment route body (assessments.py lines
42-75) with explicit exception semantics: failsAt says which stages raise;
a raising stage aborts before any later line runs, so the store of
persisted assessment results is written (one db.add of the completed
results snapshot, line 73) only after all five stages succeeded. -/
def create_assessment_route (failsAt : PipelineStage → Bool)
    (store : List AssessmentResult)
    (annual_mm rooftop_area_m2 open_space_area_m2 gw_depth_m : ℚ)
    (preferred_structure : Option String) :
    List AssessmentResult × Except PipelineStage AssessmentResult :=
  if failsAt .runoffStage then (store, .error .runoffStage) else
  let runoff_coeff : ℚ := 0.85
  let runoff_liters := estimate_runoff_liters annual_mm rooftop_area_m2 runoff_coeff
  if failsAt .selectionStage then (store, .error .selectionStage) else
  let struct_type := preferred_structure.getD
    (recommend_structure_type rooftop_area_m2 open_space_area_m2 gw_depth_m)
  if failsAt .dimensioningStage then (store, .error .dimensioningStage) else
  let sd := suggest_dimensions struct_type (runoff_liters * 0.25)
  if failsAt .costingStage then (store, .error .costingStage) else
  let costs := estimate_costs struct_type sd.effective_storage_liters
  if failsAt .benefitStage then (store, .error .benefitStage) else
  let benefit_lpy := estimate_benefit runoff_liters
  let payback_years := costs.1 / max 1.0 (benefit_lpy / 1000)
  let results : AssessmentResult :=
    { runoff := { annual_rainfall_mm := annual_mm, runoff_coefficient := runoff_coeff,
                  annual_runoff_volume_liters := runoff_liters },
      structure_design := { structure_type := struct_type, dimensions := sd.dims,
                            storage_volume_liters := sd.effective_storage_liters,
                            notes := sd.notes },
      cost := { capex_currency := costs.1, opex_currency_per_year := costs.2,
                water_savings_liters_per_year := benefit_lpy, payback_years := payback_years },
      recharge_potential_liters := min runoff_liters (sd.effective_storage_liters * 12) }
  (store ++ [results], .ok results)

/-- Structure selector transcribed from the words of the specification,
section 4.2: four rules, first match wins. Kept separate from
recommend_structure_type so that the two can be compared. -/
def select_structure_spec (roof_area_m2 open_space_area_m2 gw_depth_m : ℚ) : String :=
  if gw_depth_m < 5 ∧ open_space_area_m2 ≥ 20 then "trench"
  else if roof_area_m2 < 120 then "pit"
  else if roof_area_m2 ≥ 300 ∧ gw_depth_m ≥ 10 then "recharge_well"
  else "shaft"

/-! Helper lemmas about the rounding model. -/

theorem roundHalfEven_eq_down {x : ℚ} {n : ℤ} (h1 : (n : ℚ) ≤ x) (h2 : x - n < 1/2) :
    roundHalfEven x = n := by
  have hf : ⌊x⌋ = n := Int.floor_eq_iff.mpr ⟨h1, by linarith⟩
  have hfr : Int.fract x < 1/2 := by
    rw [Int.fract, hf]; exact h2
  unfold roundHalfEven
  rw [if_pos hfr, hf]

theorem roundHalfEven_eq_up {x : ℚ} {n : ℤ} (h1 : (n : ℚ) ≤ x) (h2 : x < n + 1)
    (h3 : 1/2 < x - n) : roundHalfEven x = n + 1 := by
  have hf : ⌊x⌋ = n := Int.floor_eq_iff.mpr ⟨h1, by exact_mod_cast h2⟩
  have hfr : 1/2 < Int.fract x := by
    rw [Int.fract, hf]; exact h3
  have hfr2 : ¬ Int.fract x < 1/2 := by linarith
  unfold roundHalfEven
  rw [if_neg hfr2, if_pos hfr, hf]

theorem roundHalfEven_le_roundHalfEven {x y : ℚ} (h : x ≤ y) :
    roundHalfEven x ≤ roundHalfEven y := by
  have hbx : ⌊x⌋ ≤ roundHalfEven x ∧ roundHalfEven x ≤ ⌊x⌋ + 1 := by
    unfold roundHalfEven; split_ifs <;> omega
  have hby : ⌊y⌋ ≤ roundHalfEven y ∧ roundHalfEven y ≤ ⌊y⌋ + 1 := by
    unfold roundHalfEven; split_ifs <;> omega
  rcases lt_or_eq_of_le (Int.floor_mono h) with hf | hf
  · omega
  · have hfr : Int.fract x ≤ Int.fract y := by
      rw [Int.fract, Int.fract, hf]
      have : (⌊y⌋ : ℚ) ≤ ⌊y⌋ := le_refl _
      linarith [h]
    unfold roundHalfEven
    split_ifs <;> first | omega | linarith

theorem pyRound2_le_pyRound2 {x y : ℚ} (h : x ≤ y) : pyRound2 x ≤ pyRound2 y := by
  unfold pyRound2
  have h100 : x * 100 ≤ y * 100 := by linarith
  have := roundHalfEven_le_roundHalfEven h100
  have hc : ((roundHalfEven (x * 100) : ℚ)) ≤ ((roundHalfEven (y * 100) : ℚ)) := by
    exact_mod_cast this
  linarith

theorem pyRound1_le_pyRound1 {x y : ℚ} (h : x ≤ y) : pyRound1 x ≤ pyRound1 y := by
  unfold pyRound1
  have h10 : x * 10 ≤ y * 10 := by linarith
  have := roundHalfEven_le_roundHalfEven h10
  have hc : ((roundHalfEven (x * 10) : ℚ)) ≤ ((roundHalfEven (y * 10) : ℚ)) := by
    exact_mod_cast this
  linarith

theorem pyRound2_of_int_mul (n : ℤ) : pyRound2 ((n : ℚ) / 100) = (n : ℚ) / 100 := by
  unfold pyRound2
  have hx : ((n : ℚ) / 100) * 100 = (n : ℚ) := by ring
  rw [hx, roundHalfEven_eq_down (le_refl (n : ℚ)) (by norm_num)]

theorem pyRound2_fix {x : ℚ} (n : ℤ) (h : x * 100 = (n : ℚ)) : pyRound2 x = x := by
  unfold pyRound2
  rw [h, roundHalfEven_eq_down (le_refl (n : ℚ)) (by norm_num)]
  linarith

theorem pyRound1_fix {x : ℚ} (n : ℤ) (h : x * 10 = (n : ℚ)) : pyRound1 x = x := by
  unfold pyRound1
  rw [h, roundHalfEven_eq_down (le_refl (n : ℚ)) (by norm_num)]
  linarith

/-! Branch-reduction lemmas for suggest_dimensions. -/

theorem depthOf_pit (t : ℚ) :
    depthOf (suggest_dimensions "pit" t) = pyRound2 (pit_depth_m t) := by
  simp [depthOf, suggest_dimensions, List.lookup]

theorem depthOf_trench (t : ℚ) :
    depthOf (suggest_dimensions "trench" t) = pyRound2 (trench_depth_m t) := by
  simp [depthOf, suggest_dimensions, List.lookup]

theorem depthOf_shaft (t : ℚ) :
    depthOf (suggest_dimensions "shaft" t) = pyRound1 (shaft_depth_m t) := by
  simp [depthOf, suggest_dimensions, List.lookup]

theorem depthOf_other (st : String) (h1 : st ≠ "pit") (h2 : st ≠ "trench")
    (h3 : st ≠ "shaft") (t : ℚ) :
    depthOf (suggest_dimensions st t) = pyRound1 (well_depth_m t) := by
  simp [depthOf, suggest_dimensions, h1, h2, h3, List.lookup]

theorem storage_pit (t : ℚ) :
    (suggest_dimensions "pit" t).effective_storage_liters
      = 0.4 * 1.5 * 1.5 * pit_depth_m t * 1000 := by
  simp [suggest_dimensions]

theorem storage_trench (t : ℚ) :
    (suggest_dimensions "trench" t).effective_storage_liters
      = 0.35 * 6.0 * 0.6 * trench_depth_m t * 1000 := by
  simp [suggest_dimensions]

theorem storage_shaft (t : ℚ) :
    (suggest_dimensions "shaft" t).effective_storage_liters
      = 0.3 * 3.1416 * (0.9/2)^2 * shaft_depth_m t * 1000 := by
  simp [suggest_dimensions]

theorem storage_other (st : String) (h1 : st ≠ "pit") (h2 : st ≠ "trench")
    (h3 : st ≠ "shaft") (t : ℚ) :
    (suggest_dimensions st t).effective_storage_liters
      = 3.1416 * (1.0/2)^2 * well_depth_m t * 1000 := by
  simp [suggest_dimensions, h1, h2, h3]

/-! Monotonicity of the per-type solved depths. -/

theorem pit_depth_m_mono {t1 t2 : ℚ} (h : t1 ≤ t2) : pit_depth_m t1 ≤ pit_depth_m t2 := by
  unfold pit_depth_m
  gcongr

theorem trench_depth_m_mono {t1 t2 : ℚ} (h : t1 ≤ t2) :
    trench_depth_m t1 ≤ trench_depth_m t2 := by
  unfold trench_depth_m
  gcongr

theorem shaft_depth_m_mono {t1 t2 : ℚ} (h : t1 ≤ t2) :
    shaft_depth_m t1 ≤ shaft_depth_m t2 := by
  unfold shaft_depth_m
  gcongr

theorem well_depth_m_mono {t1 t2 : ℚ} (h : t1 ≤ t2) :
    well_depth_m t1 ≤ well_depth_m t2 := by
  unfold well_depth_m
  gcongr

/-! Claim theorems. -/

/-- C1: recommend_structure_type applies the four selection rules in the
specified order, first match winning, agreeing everywhere with the rule
chain transcribed from the spec, and yields trench, pit, recharge_well and
shaft respectively on the four quoted inputs. -/
theorem C1_selector_rule_order :
    (∀ roof osp gw : ℚ,
      recommend_structure_type roof osp gw = select_structure_spec roof osp gw)
    ∧ recommend_structure_type 100 25 3 = "trench"
    ∧ recommend_structure_type 100 5 15 = "pit"
    ∧ recommend_structure_type 350 5 12 = "recharge_well"
    ∧ recommend_structure_type 200 5 12 = "shaft" := by
  refine ⟨fun roof osp gw => rfl, ?_, ?_, ?_, ?_⟩ <;>
    norm_num [recommend_structure_type]

/-- C9: estimate_runoff_liters with coefficient 1 multiplies rainfall by
area exactly, and in general returns the plain triple product with no
rounding or clamping. -/
theorem C9_runoff_exact :
    (∀ rainfall_mm area_m2 : ℚ, 0 ≤ rainfall_mm → 0 ≤ area_m2 →
      estimate_runoff_liters rainfall_mm area_m2 1 = rainfall_mm * area_m2)
    ∧ (∀ a b c : ℚ, estimate_runoff_liters a b c = a * b * c) := by
  constructor
  · intro rainfall_mm area_m2 _ _
    unfold estimate_runoff_liters; ring
  · intro a b c; rfl

/-- C9 witness: the coefficient-1 identity at rainfall 800 mm over 100 m2. -/
theorem C9_runoff_exact_witness :
    estimate_runoff_liters 800 100 1 = 800 * 100 :=
  C9_runoff_exact.1 800 100 (by norm_num) (by norm_num)

/-- C6: estimate_costs implements the published base-cost and
per-kiloliter tables for the four structure types, falls back to
30000 and 3.0 for any other type string, and always returns exactly
two percent of capex as opex. -/
theorem C6_cost_tables :
    ∀ s : ℚ, 0 ≤ s →
      (estimate_costs "pit" s).1 = 20000 + 3.0 * (s / 1000)
      ∧ (estimate_costs "trench" s).1 = 35000 + 2.5 * (s / 1000)
      ∧ (estimate_costs "shaft" s).1 = 60000 + 4.0 * (s / 1000)
      ∧ (estimate_costs "recharge_well" s).1 = 120000 + 4.5 * (s / 1000)
      ∧ (∀ t : String, t ≠ "pit" → t ≠ "trench" → t ≠ "shaft" →
          t ≠ "recharge_well" → (estimate_costs t s).1 = 30000 + 3.0 * (s / 1000))
      ∧ (∀ t : String, (estimate_costs t s).2 = 0.02 * (estimate_costs t s).1) := by
  intro s _
  refine ⟨by simp [estimate_costs], by simp [estimate_costs],
          by simp [estimate_costs], by simp [estimate_costs], ?_, ?_⟩
  · intro t h1 h2 h3 h4
    simp [estimate_costs, h1, h2, h3, h4]
  · intro t; rfl

/-- C6 witness: the pit cost row and the opex ratio at 17000 liters of
effective storage. -/
theorem C6_cost_tables_witness :
    (estimate_costs "pit" 17000).1 = 20000 + 3.0 * (17000 / 1000) :=
  (C6_cost_tables 17000 (by norm_num)).1

/-- C7: every pipeline result caps recharge_potential_liters at the
minimum of the annual runoff volume and twelve effective storage volumes,
so it is bounded by each of the two. -/
theorem C7_recharge_potential_cap :
    ∀ (annual roof osp gw : ℚ) (pref : Option String),
      (create_assessment_result annual roof osp gw pref).recharge_potential_liters
        = min (create_assessment_result annual roof osp gw pref).runoff.annual_runoff_volume_liters
              ((create_assessment_result annual roof osp gw pref).structure_design.storage_volume_liters * 12)
      ∧ (create_assessment_result annual roof osp gw pref).recharge_potential_liters
          ≤ (create_assessment_result annual roof osp gw pref).runoff.annual_runoff_volume_liters
      ∧ (create_assessment_result annual roof osp gw pref).recharge_potential_liters
          ≤ (create_assessment_result annual roof osp gw pref).structure_design.storage_volume_liters * 12 := by
  intro annual roof osp gw pref
  refine ⟨rfl, ?_, ?_⟩
  · exact min_le_left _ _
  · exact min_le_right _ _

/-- C8: estimate_benefit is the identity, and the pipeline computes
payback_years as capex divided by max(1, benefit in kiloliters), a
denominator that is always at least 1. -/
theorem C8_benefit_payback :
    (∀ runoff_liters : ℚ, estimate_benefit runoff_liters = runoff_liters)
    ∧ (∀ (annual roof osp gw : ℚ) (pref : Option String),
        (create_assessment_result annual roof osp gw pref).cost.payback_years
          = (create_assessment_result annual roof osp gw pref).cost.capex_currency
            / max 1.0 ((create_assessment_result annual roof osp gw pref).cost.water_savings_liters_per_year / 1000)
        ∧ (1 : ℚ) ≤ max 1.0 ((create_assessment_result annual roof osp gw pref).cost.water_savings_liters_per_year / 1000)) := by
  constructor
  · intro runoff_liters; rfl
  · intro annual roof osp gw pref
    constructor
    · rfl
    · have h : (1.0 : ℚ) = 1 := by norm_num
      rw [← h]
      exact le_max_left _ _

/-- C4: for every structure-type string, suggest_dimensions is monotone in
the target: a larger target never yields a smaller reported depth or a
smaller effective storage. -/
theorem C4_monotone_in_target :
    ∀ (st : String) (t1 t2 : ℚ), t1 ≤ t2 →
      depthOf (suggest_dimensions st t1) ≤ depthOf (suggest_dimensions st t2)
      ∧ (suggest_dimensions st t1).effective_storage_liters
          ≤ (suggest_dimensions st t2).effective_storage_liters := by
  intro st t1 t2 h
  by_cases hp : st = "pit"
  · subst hp
    refine ⟨?_, ?_⟩
    · rw [depthOf_pit, depthOf_pit]
      exact pyRound2_le_pyRound2 (pit_depth_m_mono h)
    · rw [storage_pit, storage_pit]
      have := pit_depth_m_mono h
      linarith
  by_cases htr : st = "trench"
  · subst htr
    refine ⟨?_, ?_⟩
    · rw [depthOf_trench, depthOf_trench]
      exact pyRound2_le_pyRound2 (trench_depth_m_mono h)
    · rw [storage_trench, storage_trench]
      have := trench_depth_m_mono h
      linarith
  by_cases hs : st = "shaft"
  · subst hs
    refine ⟨?_, ?_⟩
    · rw [depthOf_shaft, depthOf_shaft]
      exact pyRound1_le_pyRound1 (shaft_depth_m_mono h)
    · rw [storage_shaft, storage_shaft]
      have := shaft_depth_m_mono h
      nlinarith
  · refine ⟨?_, ?_⟩
    · rw [depthOf_other st hp htr hs, depthOf_other st hp htr hs]
      exact pyRound1_le_pyRound1 (well_depth_m_mono h)
    · rw [storage_other st hp htr hs, storage_other st hp htr hs]
      have := well_depth_m_mono h
      nlinarith

/-- C4 witness: monotonicity of the pit design between targets 0 and 100. -/
theorem C4_monotone_in_target_witness :
    depthOf (suggest_dimensions "pit" 0) ≤ depthOf (suggest_dimensions "pit" 100)
    ∧ (suggest_dimensions "pit" 0).effective_storage_liters
        ≤ (suggest_dimensions "pit" 100).effective_storage_liters :=
  C4_monotone_in_target "pit" 0 100 (by norm_num)

/-- C5: a non-positive target makes the reported depth exactly the
minimum-depth floor of each structure type: 1.2 m for pit and trench,
6.0 m for shaft, 8.0 m for recharge_well. -/
theorem C5_floor_depths :
    ∀ t : ℚ, t ≤ 0 →
      depthOf (suggest_dimensions "pit" t) = 1.2
      ∧ depthOf (suggest_dimensions "trench" t) = 1.2
      ∧ depthOf (suggest_dimensions "shaft" t) = 6.0
      ∧ depthOf (suggest_dimensions "recharge_well" t) = 8.0 := by
  intro t ht
  have hp : pit_depth_m t = 1.2 := by
    unfold pit_depth_m
    apply max_eq_left
    have hd : t / (0.4 * 1.5 * 1.5 * 1000) ≤ 0 :=
      div_nonpos_of_nonpos_of_nonneg ht (by norm_num)
    linarith
  have htr : trench_depth_m t = 1.2 := by
    unfold trench_depth_m
    apply max_eq_left
    have hd : t / (0.35 * 6.0 * 0.6 * 1000) ≤ 0 :=
      div_nonpos_of_nonpos_of_nonneg ht (by norm_num)
    linarith
  have hsh : shaft_depth_m t = 6.0 := by
    unfold shaft_depth_m
    apply max_eq_left
    have hd : t / (0.3 * 3.1416 * (0.9/2)^2 * 1000) ≤ 0 :=
      div_nonpos_of_nonpos_of_nonneg ht (by norm_num)
    linarith
  have hw : well_depth_m t = 8.0 := by
    unfold well_depth_m
    apply max_eq_left
    have hd : t / (3.1416 * (1.0/2)^2 * 1000) ≤ 0 :=
      div_nonpos_of_nonpos_of_nonneg ht (by norm_num)
    linarith
  refine ⟨?_, ?_, ?_, ?_⟩
  · rw [depthOf_pit, hp, pyRound2_fix 120 (by norm_num)]
  · rw [depthOf_trench, htr, pyRound2_fix 120 (by norm_num)]
  · rw [depthOf_shaft, hsh, pyRound1_fix 60 (by norm_num)]
  · rw [depthOf_other "recharge_well" (by simp) (by simp) (by simp), hw,
        pyRound1_fix 80 (by norm_num)]

/-- C5 witness: at target -100 the pit depth is exactly the 1.2 m floor. -/
theorem C5_floor_depths_witness :
    depthOf (suggest_dimensions "pit" (-100)) = 1.2 :=
  (C5_floor_depths (-100) (by norm_num)).1

/-- C2 counterexample: for the pit at target 17000 liters, the returned
effective storage (17000, computed from the unrounded depth 170/9) differs
from the volume formula applied to the rounded depth 18.89 reported in the
dimensions mapping (which gives 17001), so the claim fails as stated. -/
theorem C2_counterexample_pit_17000 :
    ¬ (suggest_dimensions "pit" 17000).effective_storage_liters
        = 0.4 * 1.5 * 1.5 * depthOf (suggest_dimensions "pit" 17000) * 1000 := by
  have h1 : pit_depth_m 17000 = 170/9 := by
    unfold pit_depth_m
    rw [max_eq_right (by norm_num)]
    norm_num
  have hd : depthOf (suggest_dimensions "pit" 17000) = 18.89 := by
    rw [depthOf_pit, h1]
    unfold pyRound2
    have hx : (170/9 : ℚ) * 100 = 17000/9 := by norm_num
    rw [hx, roundHalfEven_eq_up (n := 1888) (by norm_num) (by norm_num) (by norm_num)]
    norm_num
  have he : (suggest_dimensions "pit" 17000).effective_storage_liters = 17000 := by
    rw [storage_pit, h1]
    norm_num
  rw [hd, he]
  norm_num

/-- C2 (amended): for each of the four structure types the returned
effective storage is computed from the unrounded solved depth — it equals
the void-ratio volume formula applied to max(min_depth, target divided by
ratio times planform area times 1000) — while the depth reported in the
dimensions mapping is that same unrounded depth rounded (2 decimals for
pit and trench, 1 for shaft and recharge_well). -/
theorem C2_amended_storage_from_unrounded_depth :
    ∀ t : ℚ,
      ((suggest_dimensions "pit" t).effective_storage_liters
          = 0.4 * 1.5 * 1.5 * max 1.2 (t / (0.4 * 1.5 * 1.5 * 1000)) * 1000
        ∧ depthOf (suggest_dimensions "pit" t)
          = pyRound2 (max 1.2 (t / (0.4 * 1.5 * 1.5 * 1000))))
      ∧ ((suggest_dimensions "trench" t).effective_storage_liters
          = 0.35 * 6.0 * 0.6 * max 1.2 (t / (0.35 * 6.0 * 0.6 * 1000)) * 1000
        ∧ depthOf (suggest_dimensions "trench" t)
          = pyRound2 (max 1.2 (t / (0.35 * 6.0 * 0.6 * 1000))))
      ∧ ((suggest_dimensions "shaft" t).effective_storage_liters
          = 0.3 * 3.1416 * (0.9/2)^2 * max 6.0 (t / (0.3 * 3.1416 * (0.9/2)^2 * 1000)) * 1000
        ∧ depthOf (suggest_dimensions "shaft" t)
          = pyRound1 (max 6.0 (t / (0.3 * 3.1416 * (0.9/2)^2 * 1000))))
      ∧ ((suggest_dimensions "recharge_well" t).effective_storage_liters
          = 3.1416 * (1.0/2)^2 * max 8.0 (t / (3.1416 * (1.0/2)^2 * 1000)) * 1000
        ∧ depthOf (suggest_dimensions "recharge_well" t)
          = pyRound1 (max 8.0 (t / (3.1416 * (1.0/2)^2 * 1000)))) := by
  intro t
  refine ⟨⟨storage_pit t, by rw [depthOf_pit]; rfl⟩,
          ⟨storage_trench t, by rw [depthOf_trench]; rfl⟩,
          ⟨storage_shaft t, by rw [depthOf_shaft]; rfl⟩,
          ⟨storage_other "recharge_well" (by simp) (by simp) (by simp) t,
           by rw [depthOf_other "recharge_well" (by simp) (by simp) (by simp)]; rfl⟩⟩

/-- C3: on the quoted end-to-end scenario (annual rainfall 800 mm, roof
100 m2, open space 10 m2, groundwater depth 8 m, no preferred structure)
the pipeline yields 68000 liters of runoff, selects pit, targets 17000
liters, reports the solved pit depth rounded to 18.89 m with the 1.2 m
floor not binding, returns 17000 liters of effective storage, and prices
capex as 20000 plus 3 per kiloliter of effective storage. -/
theorem C3_end_to_end_scenario :
    (create_assessment_result 800 100 10 8 none).runoff.annual_runoff_volume_liters = 68000
    ∧ (create_assessment_result 800 100 10 8 none).structure_design.structure_type = "pit"
    ∧ (create_assessment_result 800 100 10 8 none).runoff.annual_runoff_volume_liters * 0.25 = 17000
    ∧ ((create_assessment_result 800 100 10 8 none).structure_design.dimensions.lookup "depth_m").getD 0 = 18.89
    ∧ max (1.2 : ℚ) (17000 / (0.4 * 1.5 * 1.5 * 1000)) = 17000 / (0.4 * 1.5 * 1.5 * 1000)
    ∧ (create_assessment_result 800 100 10 8 none).structure_design.storage_volume_liters = 17000
    ∧ (create_assessment_result 800 100 10 8 none).cost.capex_currency
        = 20000 + 3.0 * ((create_assessment_result 800 100 10 8 none).structure_design.storage_volume_liters / 1000) := by
  have hsel : recommend_structure_type 100 10 8 = "pit" := by
    norm_num [recommend_structure_type]
  have htarget : estimate_runoff_liters 800 100 0.85 * 0.25 = 17000 := by
    norm_num [estimate_runoff_liters]
  have hdepth : pit_depth_m 17000 = 170/9 := by
    unfold pit_depth_m
    rw [max_eq_right (by norm_num)]
    norm_num
  have hsd : suggest_dimensions "pit" (estimate_runoff_liters 800 100 0.85 * 0.25)
      = suggest_dimensions "pit" 17000 := by rw [htarget]
  have hstor : (create_assessment_result 800 100 10 8 none).structure_design.storage_volume_liters
      = 17000 := by
    simp only [create_assessment_result, Option.getD_none, hsel, hsd]
    rw [storage_pit, hdepth]
    norm_num
  refine ⟨?_, ?_, ?_, ?_, ?_, hstor, ?_⟩
  · simp only [create_assessment_result]
    norm_num [estimate_runoff_liters]
  · simp only [create_assessment_result, Option.getD_none, hsel]
  · simp only [create_assessment_result]
    exact htarget
  · simp only [create_assessment_result, Option.getD_none, hsel, hsd]
    show depthOf (suggest_dimensions "pit" 17000) = 18.89
    rw [depthOf_pit, hdepth]
    unfold pyRound2
    have hx : (170/9 : ℚ) * 100 = 17000/9 := by norm_num
    rw [hx, roundHalfEven_eq_up (n := 1888) (by norm_num) (by norm_num) (by norm_num)]
    norm_num
  · rw [max_eq_right (by norm_num)]
  · rw [hstor]
    simp only [create_assessment_result, Option.getD_none, hsel, hsd]
    rw [storage_pit, hdepth]
    simp [estimate_costs]
    norm_num

/-- C10: in the route model with explicit per-stage failure flags, a
failure at any of the five pipeline stages leaves the store of persisted
assessments unchanged, and on success exactly one record — the complete
five-stage result — is appended. -/
theorem C10_fail_fast :
    ∀ (failsAt : PipelineStage → Bool) (store : List AssessmentResult)
      (annual roof osp gw : ℚ) (pref : Option String),
      (∀ e, (create_assessment_route failsAt store annual roof osp gw pref).2 = Except.error e →
        (create_assessment_route failsAt store annual roof osp gw pref).1 = store)
      ∧ (∀ out, (create_assessment_route failsAt store annual roof osp gw pref).2 = Except.ok out →
          (create_assessment_route failsAt store annual roof osp gw pref).1 = store ++ [out]
          ∧ out = create_assessment_result annual roof osp gw pref) := by
  intro failsAt store annual roof osp gw pref
  unfold create_assessment_route
  split_ifs
  case _ => exact ⟨fun e _ => rfl, fun out hout => hout.elim⟩
  case _ => exact ⟨fun e _ => rfl, fun out hout => hout.elim⟩
  case _ => exact ⟨fun e _ => rfl, fun out hout => hout.elim⟩
  case _ => exact ⟨fun e _ => rfl, fun out hout => hout.elim⟩
  case _ => exact ⟨fun e _ => rfl, fun out hout => hout.elim⟩
  case _ =>
    refine ⟨fun e he => he.elim, fun out hout => ?_⟩
    injection hout with h
    subst h
    exact ⟨rfl, rfl⟩

/-- C10 witness: when every stage fails, the empty store stays empty. -/
theorem C10_fail_fast_witness :
    (create_assessment_route (fun _ => true) [] 800 100 10 8 none).1 = [] :=
  (C10_fail_fast (fun _ => true) [] 800 100 10 8 none).1 PipelineStage.runoffStage rfl

end RTRWH
